import Mathlib

/-!
Shallow embedding of `mmseg/models/backbones/mix_transformer_gt_omega.py`
(the SegFormer-GT-Omega backbone) and proofs about it.

Tensors are modelled as row-major contiguous storage (`flat : Nat → α`)
together with a shape, mirroring PyTorch contiguous tensors: `.view` (and
`.reshape` on contiguous inputs) reinterprets the same storage under a new
shape, `.permute(...).contiguous()` re-lays the data out, and elementwise or
attention operations are written index-wise.  Python floats are modelled by
`ℚ`; the two non-rational ingredients of the source (`head_dim ** -0.5` at
construction and `exp` inside softmax) enter only as opaque parameters,
since no claim depends on their numeric values.
-/

/-- Python exceptions raised by the modelled code paths. -/
inductive PyError where
  /-- TypeError raised by `H // window_size` on line 34 when `window_partition`
  is called with `self.window_size`, a pair, as on line 184: unsupported
  operand types for // (int and tuple). -/
  | typeErrorIntFloorDivTuple
  /-- TypeError: a tuple used where an integer dimension size is required. -/
  | typeErrorTupleAsSize
  /-- ValueError: too many values to unpack (a tuple assignment whose target
  list is shorter than the sequence being unpacked). -/
  | valueErrorUnpack (expected got : Nat)
  /-- RuntimeError: shape is invalid for the input size (torch `.view`). -/
  | runtimeErrorViewShape
  /-- RuntimeError: tensors of different ranks passed to `torch.cat`. -/
  | runtimeErrorCatRank
  /-- RuntimeError: non-concatenated dimensions disagree in `torch.cat`. -/
  | runtimeErrorCatShape
  /-- RuntimeError: shapes not broadcastable in an elementwise addition. -/
  | runtimeErrorBroadcast
  /-- A region of the file that has no parse (see `Block.forward`, line 262). -/
  | unparseableRegion
deriving DecidableEq

/-- Python dynamic values that can stand in `window_size` position: an int or
a pair (2-tuple of ints). -/
inductive PyVal where
  | int (n : Nat)
  | pair (a b : Nat)
deriving DecidableEq

/-- Python `a // b` on such dynamic values: defined for two ints (floor
division; sizes here are nonnegative, so it is `Nat` division), a `TypeError`
otherwise — in particular for `int // tuple`. -/
def pyFloorDiv : PyVal → PyVal → Except PyError Nat
  | PyVal.int a, PyVal.int b => Except.ok (a / b)
  | _, _ => Except.error PyError.typeErrorIntFloorDivTuple

/-- Using a Python value as a tensor dimension size: ints only. -/
def pyAsSize : PyVal → Except PyError Nat
  | PyVal.int a => Except.ok a
  | _ => Except.error PyError.typeErrorTupleAsSize

/-- A PyTorch tensor: a shape together with row-major contiguous storage. -/
structure Tensor (α : Type) where
  shape : List Nat
  flat : Nat → α

/-- Number of elements of a tensor (product of the dimensions). -/
def Tensor.numel (t : Tensor α) : Nat := t.shape.prod

/-- Row-major flat offset of a multi-index `idx` in shape `s`. -/
def flattenIdx : List Nat → List Nat → Nat
  | [], _ => 0
  | _ :: _, [] => 0
  | _ :: ds, i :: is => i * ds.prod + flattenIdx ds is

/-- The multi-index in shape `s` whose row-major flat offset is `k`. -/
def unflattenIdx : List Nat → Nat → List Nat
  | [], _ => []
  | _ :: ds, k => k / ds.prod :: unflattenIdx ds (k % ds.prod)

/-- `idx` is a componentwise in-bounds multi-index for shape `s`. -/
def validIdx : List Nat → List Nat → Bool
  | [], [] => true
  | d :: ds, i :: is => decide (i < d) && validIdx ds is
  | _, _ => false

/-- Entry of a tensor at a multi-index. -/
def Tensor.get (t : Tensor α) (idx : List Nat) : α := t.flat (flattenIdx t.shape idx)

/-- Torch `.view` / `.reshape` on a contiguous tensor: same storage, new
shape.  Torch additionally checks that the element counts agree; on the
fallible code paths below this check is modelled by `Tensor.viewChecked`, and
on the pure paths the theorems' hypotheses guarantee it. -/
def Tensor.view (t : Tensor α) (s : List Nat) : Tensor α := ⟨s, t.flat⟩

/-- Torch `.view` together with its run-time element-count check. -/
def Tensor.viewChecked (t : Tensor α) (s : List Nat) : Except PyError (Tensor α) :=
  if s.prod = t.numel then Except.ok (t.view s) else Except.error PyError.runtimeErrorViewShape

/-- Torch `.permute(p).contiguous()`: dimension `i` of the result is dimension
`p i` of the input, and the data is re-laid out contiguously.  Entry of the
result at multi-index `y` is the entry of `t` at the index whose component at
dimension `d` is `y (p.indexOf d)`. -/
def Tensor.permute (t : Tensor α) (p : List Nat) : Tensor α :=
  let s := p.map fun d => t.shape.getD d 0
  ⟨s, fun k =>
    t.flat (flattenIdx t.shape
      ((List.range t.shape.length).map fun d => (unflattenIdx s k).getD (p.indexOf d) 0))⟩

/-- Build a tensor of shape `s` from an entrywise description. -/
def Tensor.ofFn (s : List Nat) (f : List Nat → α) : Tensor α :=
  ⟨s, fun k => f (unflattenIdx s k)⟩

/-- Elementwise equality of two tensors: equal shapes and equal entries at
every valid index.  This is the meaning of `==` between tensors in the spec's
round-trip properties. -/
def Tensor.EqOn (a b : Tensor α) : Prop :=
  a.shape = b.shape ∧ ∀ idx, validIdx b.shape idx = true → a.get idx = b.get idx

/-- Lines 24-36 of the source.  `window_partition(x, window_size)` for a
rank-4 input `(B, H, W, C)` and an *int* `window_size` (the type the
docstring documents and that claim C1 quantifies over):

    B, H, W, C = x.shape
    x = x.view(B, H // window_size, window_size, W // window_size, window_size, C)
    windows = x.permute(0, 1, 3, 2, 4, 5).contiguous().view(-1, window_size, window_size, C)

The `-1` dimension of the final `.view` is inferred by torch as the element
count divided by the product of the listed dimensions.  The `.view` calls
carry torch's run-time element-count check, satisfied exactly when
`window_size` divides `H` and `W` (the hypotheses of the round-trip
theorem); a rank other than 4 would make the unpack on line 33 raise and is
excluded by the same hypotheses. -/
def window_partition (x : Tensor α) (window_size : Nat) : Tensor α :=
  match x.shape with
  | [B, H, W, C] =>
    let x1 := x.view [B, H / window_size, window_size, W / window_size, window_size, C]
    let xp := x1.permute [0, 1, 3, 2, 4, 5]
    xp.view [xp.numel / (window_size * window_size * C), window_size, window_size, C]
  | _ => x

/-- Lines 39-53 of the source.  `window_reverse(windows, window_size, H, W)`:

    B = int(windows.shape[0] / (H * W / window_size / window_size))
    x = windows.view(B, H // window_size, W // window_size, window_size, window_size, -1)
    x = x.permute(0, 1, 3, 2, 4, 5).contiguous().view(B, H, W, -1)

Python's `/` on line 50 is float division wrapped in `int`; under the
divisibility hypotheses of the claims every division is exact, so it
coincides with `Nat` division as written here. -/
def window_reverse (windows : Tensor α) (window_size H W : Nat) : Tensor α :=
  let B := windows.shape.getD 0 0 / (H * W / window_size / window_size)
  let x1 := windows.view [B, H / window_size, W / window_size, window_size, window_size,
    windows.numel / (B * (H / window_size) * (W / window_size) * window_size * window_size)]
  let x2 := x1.permute [0, 1, 3, 2, 4, 5]
  x2.view [B, H, W, x2.numel / (B * H * W)]

/-- Exchange of positions 2 and 3 of a multi-index: the index action of
`permute(0, 1, 3, 2, 4, 5)`. -/
def swap23 : List Nat → List Nat
  | a :: b :: c :: d :: rest => a :: b :: d :: c :: rest
  | l => l

/-- Line 271 of the source: `rearrange(gt, "(b n) g c -> b (n g) c", n=nw)`.
Both sides of the einops pattern list the axes in the same order
(`b`, `n`, `g`, `c`), so on row-major storage the operation is a pure
reshape: the leading dimension is split as `b = shape0 // n` (einops checks
the divisibility; the round-trip theorem's hypotheses provide it) and the
middle two are merged. -/
def rearrange_bn_g_c_to_b_ng_c (t : Tensor α) (n : Nat) : Tensor α :=
  match t.shape with
  | [bn, g, c] => t.view [bn / n, n * g, c]
  | _ => t

/-- Line 275 of the source: `rearrange(gt, "b (n g) c -> (b n) g c", g=ngt, c=c)`.
Again axes appear in the same order on both sides, so this is the pure
reshape splitting the middle dimension as `n = shape1 // g` (einops checks
divisibility and that `c` matches) and merging `b` with `n`. -/
def rearrange_b_ng_c_to_bn_g_c (t : Tensor α) (g c : Nat) : Tensor α :=
  match t.shape with
  | [b, ng, _c0] => t.view [b * (ng / g), g, c]
  | _ => t

/-- Python tuple unpacking `a, b, c = l` of a shape: `ValueError` unless the
sequence has exactly three entries. -/
def unpack3 (l : List Nat) : Except PyError (Nat × Nat × Nat) :=
  match l with
  | [a, b, c] => Except.ok (a, b, c)
  | _ => Except.error (PyError.valueErrorUnpack 3 l.length)

/-- Python tuple unpacking `a, b, c, d = l` of a shape. -/
def unpack4 (l : List Nat) : Except PyError (Nat × Nat × Nat × Nat) :=
  match l with
  | [a, b, c, d] => Except.ok (a, b, c, d)
  | _ => Except.error (PyError.valueErrorUnpack 4 l.length)

/-- `nn.Linear(inF, outF)`: a weight of shape `(outF, inF)` and a bias of
shape `(outF)`. -/
structure Linear where
  inF : Nat
  outF : Nat
  weight : Nat → Nat → ℚ
  bias : Nat → ℚ

/-- Application of a linear layer along the last axis of a tensor. -/
def Linear.apply (L : Linear) (t : Tensor ℚ) : Tensor ℚ :=
  Tensor.ofFn (t.shape.dropLast ++ [L.outF]) fun idx =>
    (Finset.range L.inF).sum
      (fun i => t.get (idx.dropLast ++ [i]) * L.weight (idx.getLast?.getD 0) i)
    + L.bias (idx.getLast?.getD 0)

/-- Elementwise multiplication of a tensor by a scalar (torch `t * s`). -/
def Tensor.scalarMul (t : Tensor ℚ) (c : ℚ) : Tensor ℚ := ⟨t.shape, fun k => t.flat k * c⟩

/-- Elementwise sum of two same-shaped tensors (the residual additions). -/
def Tensor.add (a b : Tensor ℚ) : Tensor ℚ :=
  Tensor.ofFn a.shape fun idx => a.get idx + b.get idx

/-- Torch `x + pe` for `x : (B, N, C)` against `pe : (N, C)` — the one
broadcasting pattern used (line 132); raises unless the trailing dimensions
of `x` match `pe`. -/
def Tensor.addBroadcast (a b : Tensor ℚ) : Except PyError (Tensor ℚ) :=
  if b.shape = a.shape.drop 1 then
    Except.ok (Tensor.ofFn a.shape fun idx => a.get idx + b.get (idx.drop 1))
  else Except.error PyError.runtimeErrorBroadcast

/-- `softmax(dim=-1)`: exponentials normalised along the last axis; the real
exponential enters as the parameter `expf`. -/
def Tensor.softmaxLast (expf : ℚ → ℚ) (t : Tensor ℚ) : Tensor ℚ :=
  Tensor.ofFn t.shape fun idx =>
    expf (t.get idx) /
      (Finset.range (t.shape.getLast?.getD 0)).sum fun j => expf (t.get (idx.dropLast ++ [j]))

/-- Batched matrix product `a @ b` of rank-4 operands
`(d0, d1, n, k) @ (d0, d1, k, m)`. -/
def Tensor.matmul4 (a b : Tensor ℚ) : Tensor ℚ :=
  match a.shape, b.shape with
  | [d0, d1, n, kk], [_, _, _, m] =>
    Tensor.ofFn [d0, d1, n, m] fun idx =>
      match idx with
      | [i, j, r, s] => (Finset.range kk).sum fun t0 => a.get [i, j, r, t0] * b.get [i, j, t0, s]
      | _ => 0
  | _, _ => a

/-- Indexing the leading dimension of a contiguous tensor: `t[i]`. -/
def Tensor.select0 (t : Tensor α) (i : Nat) : Tensor α :=
  ⟨t.shape.drop 1, fun k => t.flat (i * (t.shape.drop 1).prod + k)⟩

/-- `x[:, a:, :]` on a rank-3 tensor (line 224; Python slicing clamps). -/
def Tensor.slice1From (t : Tensor ℚ) (a : Nat) : Tensor ℚ :=
  match t.shape with
  | [b, n, c] => Tensor.ofFn [b, n - a, c] fun idx =>
      match idx with
      | [i, j, k] => t.get [i, a + j, k]
      | _ => 0
  | _ => t

/-- `x[:, :a, :]` on a rank-3 tensor (line 224; Python slicing clamps). -/
def Tensor.slice1To (t : Tensor ℚ) (a : Nat) : Tensor ℚ :=
  match t.shape with
  | [b, n, c] => Tensor.ofFn [b, min a n, c] fun idx => t.get idx
  | _ => t

/-- `pe[start:stop, :]` on a rank-2 tensor (Python slicing clamps `stop` at
the length). -/
def Tensor.slice0 (t : Tensor ℚ) (start stop : Nat) : Tensor ℚ :=
  Tensor.ofFn ((min stop (t.shape.headD 0) - start) :: t.shape.drop 1) fun idx =>
    t.get ((start + idx.headD 0) :: idx.drop 1)

/-- `F.pad(x, (0, 0, pad_l, pad_r, pad_t, pad_b))` on a rank-4 tensor
`(B, H, W, C)` (line 181): zero padding of the `H` and `W` axes; the leading
pair `(0, 0)` applies to the trailing `C` axis. -/
def Tensor.pad4 (t : Tensor ℚ) (pad_l pad_r pad_t pad_b : Nat) : Tensor ℚ :=
  match t.shape with
  | [b, h, w, c] =>
    Tensor.ofFn [b, pad_t + h + pad_b, pad_l + w + pad_r, c] fun idx =>
      match idx with
      | [i, hh, ww, cc] =>
        if pad_t ≤ hh ∧ hh < pad_t + h ∧ pad_l ≤ ww ∧ ww < pad_l + w then
          t.get [i, hh - pad_t, ww - pad_l, cc]
        else 0
      | _ => 0
  | _ => t

/-- `torch.cat([a, b], dim=1)` for rank-3 operands; raises when the operand
ranks differ — the situation on line 193, where `gt` is rank 3 but `x` is
the rank-4 padded tensor — or when the non-concatenated dimensions
disagree. -/
def cat1 (a b : Tensor ℚ) : Except PyError (Tensor ℚ) :=
  match a.shape, b.shape with
  | [b0, n0, c0], [b1, n1, c1] =>
    if b0 = b1 ∧ c0 = c1 then
      Except.ok (Tensor.ofFn [b0, n0 + n1, c0] fun idx =>
        match idx with
        | [i, j, k] => if j < n0 then a.get [i, j, k] else b.get [i, j - n0, k]
        | _ => 0)
    else Except.error PyError.runtimeErrorCatShape
  | _, _ => Except.error PyError.runtimeErrorCatRank

/-- Whether a modelled Python call returned normally (rather than raising). -/
def exceptIsOk : Except ε α → Bool
  | Except.ok _ => true
  | Except.error _ => false

/-- einops `repeat(gt, "g c -> b g c", b=B)` (lines 192 and 264): broadcast
of a rank-2 tensor over a batch.  The call sites guard with
`len(gt.shape) != 3`, and the ranks other than 2 never reach the call in the
modelled paths. -/
def repeat_gc (t : Tensor ℚ) (b : Nat) : Tensor ℚ :=
  match t.shape with
  | [g, c] => Tensor.ofFn [b, g, c] fun idx => t.get (idx.drop 1)
  | _ => t

/-- Lines 129-131 of `ClassicAttention.forward`:

    m = pe.shape[0]
    strt = m//2-N//2
    pe = pe[strt:strt+N,:]

`strt` is computed here in `Nat`; for `N ≤ m` — the regime of every call and
of claim C6 — Python's signed arithmetic is nonnegative and agrees with
`Nat` subtraction and division. -/
def centeredSlice (pe : Tensor ℚ) (N : Nat) : Tensor ℚ :=
  let m := pe.shape.headD 0
  let strt := m / 2 - N / 2
  Tensor.slice0 pe strt (strt + N)

/-- `ClassicAttention` (lines 93-118): windowless multi-head self-attention
with an additive positional embedding.  `scale` holds `qk_scale or
head_dim ** -0.5` (line 111); the default is irrational, so the value is a
construction parameter of the embedding — no claim depends on it.  The
dropout layers are the identity outside training and are modelled as
such. -/
structure ClassicAttention where
  dim : Nat
  num_heads : Nat
  scale : ℚ
  qkv : Linear
  proj : Linear

/-- Lines 105-118, `ClassicAttention.__init__`: wires
`qkv = nn.Linear(dim, dim * 3)` and `proj = nn.Linear(dim, dim)` around the
given weight initialisations. -/
def ClassicAttention.init (dim num_heads : Nat) (scale : ℚ)
    (qkvW : Nat → Nat → ℚ) (qkvB : Nat → ℚ)
    (projW : Nat → Nat → ℚ) (projB : Nat → ℚ) : ClassicAttention :=
  { dim := dim, num_heads := num_heads, scale := scale
    qkv := { inF := dim, outF := dim * 3, weight := qkvW, bias := qkvB }
    proj := { inF := dim, outF := dim, weight := projW, bias := projB } }

/-- Lines 134-145 of `ClassicAttention.forward` in isolation — the pipeline
from `self.qkv` to `self.proj` applied to an already-summed input:

    qkv = self.qkv(x).reshape(B_, N, 3, nH, C // nH).permute(2, 0, 3, 1, 4)
    q, k, v = qkv[0], qkv[1], qkv[2]
    q = q * self.scale
    attn = self.softmax(q @ k.transpose(-2, -1))
    x = (attn @ v).transpose(1, 2).reshape(B_, N, C)
    x = self.proj(x)

(`transpose(-2, -1)` is `permute [0, 1, 3, 2]` and `transpose(1, 2)` is
`permute [0, 2, 1, 3]` on the rank-4 operands; dropout is the identity.)
Named separately so that C6 can state that `forward` feeds `x + pe` into
it. -/
def ClassicAttention.qkvPipeline (expf : ℚ → ℚ) (A : ClassicAttention)
    (B_ N C : Nat) (x : Tensor ℚ) : Tensor ℚ :=
  let qkv := ((A.qkv.apply x).view [B_, N, 3, A.num_heads, C / A.num_heads]).permute
    [2, 0, 3, 1, 4]
  let q := qkv.select0 0
  let k := qkv.select0 1
  let v := qkv.select0 2
  let q := q.scalarMul A.scale
  let attn := q.matmul4 (k.permute [0, 1, 3, 2])
  let attn := attn.softmaxLast expf
  let x := ((attn.matmul4 v).permute [0, 2, 1, 3]).view [B_, N, C]
  A.proj.apply x

/-- Lines 121-146: `ClassicAttention.forward(x, pe)`:

    B_, N, C = x.shape
    m = pe.shape[0]; strt = m//2-N//2; pe = pe[strt:strt+N,:]
    x = x + pe

followed by the Q/K/V pipeline of `ClassicAttention.qkvPipeline` (written
out inline here exactly as in the source). -/
def ClassicAttention.forward (expf : ℚ → ℚ) (A : ClassicAttention) (x pe : Tensor ℚ) :
    Except PyError (Tensor ℚ) := do
  let (B_, N, C) ← unpack3 x.shape
  let pe := centeredSlice pe N
  let x ← x.addBroadcast pe
  let qkv := ((A.qkv.apply x).view [B_, N, 3, A.num_heads, C / A.num_heads]).permute
    [2, 0, 3, 1, 4]
  let q := qkv.select0 0
  let k := qkv.select0 1
  let v := qkv.select0 2
  let q := q.scalarMul A.scale
  let attn := q.matmul4 (k.permute [0, 1, 3, 2])
  let attn := attn.softmaxLast expf
  let x := ((attn.matmul4 v).permute [0, 2, 1, 3]).view [B_, N, C]
  pure (A.proj.apply x)

/-- The Local `Attention` module (lines 150-170): wraps the `q` and `kv`
projections and the configuration extracted from a pre-built sibling
attention module.  The spatial-reduction branch (`sr_ratio > 1`) is
commented out in `forward` (lines 199-212), so `sr` and `norm` play no
role; dropout layers are the identity outside training.  `window_size`
keeps its constructor default `(8, 8)` — a pair — on every instantiation
(`Block.__init__`, line 233, passes only `block.attn` and `gt_num`). -/
structure Attention where
  dim : Nat
  num_heads : Nat
  scale : ℚ
  q : Linear
  kv : Linear
  proj : Linear
  sr_ratio : Nat
  gt_num : Nat
  window_size : Nat × Nat

/-- The call `window_partition(x, self.window_size)` on line 184 under
Python's dynamic typing.  `self.window_size` is the pair `(8, 8)`, while the
body of `window_partition` (line 34) floor-divides by it:

    x.view(B, H // window_size, window_size, W // window_size, window_size, C)

Arguments of the `view` are evaluated left to right, so `H // window_size` —
`int // tuple` — raises a `TypeError` before anything else happens; the rest
of the body (written out below) is unreachable for a pair argument. -/
def window_partition_call (x : Tensor ℚ) (ws : Nat × Nat) : Except PyError (Tensor ℚ) := do
  let (b, h, w, c) ← unpack4 x.shape
  let hdiv ← pyFloorDiv (PyVal.int h) (PyVal.pair ws.1 ws.2)
  let wsize1 ← pyAsSize (PyVal.pair ws.1 ws.2)
  let wdiv ← pyFloorDiv (PyVal.int w) (PyVal.pair ws.1 ws.2)
  let x1 := x.view [b, hdiv, wsize1, wdiv, wsize1, c]
  let xp := x1.permute [0, 1, 3, 2, 4, 5]
  pure (xp.view [xp.numel / (wsize1 * wsize1 * c), wsize1, wsize1, c])

/-- Lines 172-224: `Attention.forward(x, H, W, gt)`, embedded step by step
with every fallible Python/torch operation explicit:

* line 173 `B, N_, C = x.shape` — three-way unpack;
* line 177 `x = x.view(B, H, W, C)` — with torch's element-count check;
* lines 178-181 — trailing-edge zero padding up to window multiples;
* line 182 `_, Hp, Wp, _ = x.shape`;
* line 184 `window_partition(x, self.window_size)` — `window_partition_call`:
  raises `TypeError` on every input because `self.window_size` is a pair,
  making everything below this point dead on every run (it is nonetheless
  embedded faithfully);
* line 185 the `.view(-1, window_size[0]*window_size[1], C)` of the windows;
* line 186 `x_windows = x` — the overwrite that discards the windowed value;
* line 187 the three-way unpack of the rank-4 `x_windows.shape`;
* lines 190-193 broadcast of `gt` and `torch.cat([gt, x], dim=1)`;
* lines 195-222 Q/KV projections (`kv` over the full sequence, the
  `sr_ratio` branch being commented out), scaled dot-product attention and
  output projection;
* line 224 `return x[:, gt_num:, :], x[:, :gt_num, :]`. -/
def Attention.forward (expf : ℚ → ℚ) (A : Attention) (x : Tensor ℚ) (H W : Nat)
    (gt : Tensor ℚ) : Except PyError (Tensor ℚ × Tensor ℚ) := do
  let (B, _N, C) ← unpack3 x.shape
  let gt_num := A.gt_num
  let x ← x.viewChecked [B, H, W, C]
  let pad_l := 0
  let pad_t := 0
  let pad_b := (A.window_size.1 - H % A.window_size.1) % A.window_size.1
  let pad_r := (A.window_size.2 - W % A.window_size.2) % A.window_size.2
  let x := x.pad4 pad_l pad_r pad_t pad_b
  let (_, _Hp, _Wp, _) ← unpack4 x.shape
  let x_windows ← window_partition_call x A.window_size
  let x_windows := x_windows.view
    [x_windows.numel / (A.window_size.1 * A.window_size.2 * C),
      A.window_size.1 * A.window_size.2, C]
  let x_windows := x
  let (B, _N, C) ← unpack3 x_windows.shape
  let (x_windows, gt) ←
    if gt_num ≠ 0 then do
      let gt := if gt.shape.length ≠ 3 then repeat_gc gt B else gt
      let xw ← cat1 gt x
      pure (xw, gt)
    else pure (x_windows, gt)
  let (B, N, C) ← unpack3 x_windows.shape
  let q := ((A.q.apply x_windows).view [B, N, A.num_heads, C / A.num_heads]).permute
    [0, 2, 1, 3]
  let kvt := A.kv.apply x_windows
  let kv := (kvt.view [B, kvt.numel / (B * 2 * A.num_heads * (C / A.num_heads)), 2,
    A.num_heads, C / A.num_heads]).permute [2, 0, 3, 1, 4]
  let k := kv.select0 0
  let v := kv.select0 1
  let attn := (q.matmul4 (k.permute [0, 1, 3, 2])).scalarMul A.scale
  let attn := attn.softmaxLast expf
  let x := ((attn.matmul4 v).permute [0, 2, 1, 3]).view [B, N, C]
  let x := A.proj.apply x
  pure (x.slice1From gt_num, x.slice1To gt_num)

/-- The chain of rebindings of the local name `x_windows` on lines 184-186
of `Attention.forward`, as written, taking the partition result as given:

    x_windows = window_partition(x, self.window_size)
    x_windows = x_windows.view(-1, self.window_size[0] * self.window_size[1], C)
    x_windows = x

The first two bindings are dead stores: the final value is the padded,
un-windowed `x`. -/
def xWindowsAfterLine186 (partitioned x : Tensor ℚ) (ws : Nat × Nat) (C : Nat) : Tensor ℚ :=
  let x_windows := partitioned
  let x_windows := x_windows.view
    [x_windows.numel / (ws.1 * ws.2 * C), ws.1 * ws.2, C]
  let x_windows := x
  x_windows

/-- A `Block` (lines 227-277).  The normalisation layers, drop-path and the
token MLP are external collaborators (spec §6) and enter as opaque
functions.  `Block.__init__` itself is not valid Python (claim C3): its
parameter list `(self, block, gt_num=1, dim, num_heads, ...)` places
non-default parameters after a default one, and the `do_gmsa` sub-modules
reference the undefined name `mlp_hidden_dim`.  The structure records the
fields a repaired constructor would bind, so that the reachable prefix of
`Block.forward` can be stated. -/
structure Block where
  norm1 : Tensor ℚ → Tensor ℚ
  norm2 : Tensor ℚ → Tensor ℚ
  attn : Attention
  drop_path : Tensor ℚ → Tensor ℚ
  mlp : Tensor ℚ → Nat → Nat → Tensor ℚ
  gt_num : Nat
  do_gmsa : Bool

/-- Lines 251-277: `Block.forward(x, H, W, gt, pe)`.  The prefix through
line 260 is well-formed Python and is embedded literally:

    B, N, C = x.shape
    skip = x
    skip_gt = gt
    x = self.norm1(x)
    x, gt = self.attn(x, H, W, gt)
    x = skip + self.drop_path(x)
    x = x + self.drop_path(self.mlp(self.norm2(x), H, W))

Line 262 reads `if self.gt_num != 0 and :` — `and` with no right operand,
which has no parse — so the region from line 262 to the `return` has no
Python semantics; it is modelled as an error.  The choice is immaterial:
the attention call on line 257 raises on every input
(`attention_forward_never_ok`), so no run reaches line 262 under any repair
of the condition. -/
def Block.forward (expf : ℚ → ℚ) (blk : Block) (x : Tensor ℚ) (H W : Nat)
    (gt _pe : Tensor ℚ) : Except PyError (Tensor ℚ × Tensor ℚ) := do
  let (_B, _N, _C) ← unpack3 x.shape
  let skip := x
  let _skip_gt := gt
  let x := blk.norm1 x
  let (x, _gt) ← blk.attn.forward expf x H W gt
  let x := skip.add (blk.drop_path x)
  let _x := x.add (blk.drop_path (blk.mlp (blk.norm2 x) H W))
  Except.error PyError.unparseableRegion

/-- Identifiers of the Python module that the syntactic claims consult.
Constructors follow the source spelling where Lean allows it (`partialFn`
stands for functools `partial`, `einopsRepeat` and `einopsRearrange` for the
einops imports, `superBuiltin` / `intBuiltin` / `lenBuiltin` for builtins,
`trunc_normal` for `trunc_normal_`, `cfg` for `_cfg`). -/
inductive PyName where
  | torch | nn | F | partialFn | DropPath | to_2tuple | trunc_normal
  | register_model | cfg | BACKBONES | get_root_logger | load_checkpoint
  | math | mit_b4 | einopsRepeat | einopsRearrange
  | window_partition | window_reverse
  | ClassiqueMlp | DWConv | ClassicAttention | Attention | Block | SegFormerGTOmega
  | superBuiltin | isinstance | intBuiltin | lenBuiltin
  | self | block | gt_num | dim | num_heads | mlp_ratio | qkv_bias | qk_scale
  | drop | attn_drop | drop_path | act_layer | norm_layer | sr_ratio
  | window_size | do_gmsa
  | mlp_hidden_dim | embed_dims | ws_pe
deriving DecidableEq

/-- One parameter of a Python `def` header: its name and whether it carries
a default value. -/
structure PyParam where
  name : PyName
  hasDefault : Bool
deriving DecidableEq

/-- Python's grammar rule for the parameter lists appearing here (no `*` or
`/` markers occur in the source): once a parameter has a default, every
later parameter must have one too; a list violating this makes the `def` a
SyntaxError. -/
def paramsGrammatical : List PyParam → Bool
  | [] => true
  | p :: rest =>
    if p.hasDefault then rest.all fun q => q.hasDefault
    else paramsGrammatical rest

/-- The parameter list of `Block.__init__` (lines 229-230):
`(self, block, gt_num=1, dim, num_heads, mlp_ratio=4., qkv_bias=False,
qk_scale=None, drop=0., attn_drop=0., drop_path=0., act_layer=nn.GELU,
norm_layer=nn.LayerNorm, sr_ratio=1, window_size=(8,8), do_gmsa=True)` —
the non-default `dim` and `num_heads` follow the defaulted `gt_num`. -/
def blockInitParams : List PyParam :=
  [⟨PyName.self, false⟩, ⟨PyName.block, false⟩, ⟨PyName.gt_num, true⟩,
   ⟨PyName.dim, false⟩, ⟨PyName.num_heads, false⟩, ⟨PyName.mlp_ratio, true⟩,
   ⟨PyName.qkv_bias, true⟩, ⟨PyName.qk_scale, true⟩, ⟨PyName.drop, true⟩,
   ⟨PyName.attn_drop, true⟩, ⟨PyName.drop_path, true⟩, ⟨PyName.act_layer, true⟩,
   ⟨PyName.norm_layer, true⟩, ⟨PyName.sr_ratio, true⟩, ⟨PyName.window_size, true⟩,
   ⟨PyName.do_gmsa, true⟩]

/-- Tokens of the condition of `Block.forward` line 262,
`if self.gt_num != 0 and :`, between `if` and the colon. -/
inductive PyTok where
  | attrRead (base field : PyName)
  | natLit (n : Nat)
  | opNotEq
  | opAnd
deriving DecidableEq

/-- The token stream of the line 262 condition. -/
def line262CondTokens : List PyTok :=
  [PyTok.attrRead PyName.self PyName.gt_num, PyTok.opNotEq, PyTok.natLit 0, PyTok.opAnd]

/-- A condition whose token stream ends with a binary operator cannot parse:
Python's grammar requires an operand after `and` or `!=`. -/
def endsWithBinaryOp (ts : List PyTok) : Bool :=
  match ts.getLast? with
  | some PyTok.opNotEq => true
  | some PyTok.opAnd => true
  | _ => false

/-- Names bound at module top level (imports, the windowing functions and
the class statements, lines 6-21 and the four `class` headers) together
with the builtins the constructors consult.  `DWConv` is deliberately
absent: it is referenced (line 62) but never imported or defined. -/
def moduleScope : List PyName :=
  [PyName.torch, PyName.nn, PyName.F, PyName.partialFn, PyName.DropPath,
   PyName.to_2tuple, PyName.trunc_normal, PyName.register_model, PyName.cfg,
   PyName.BACKBONES, PyName.get_root_logger, PyName.load_checkpoint, PyName.math,
   PyName.mit_b4, PyName.einopsRepeat, PyName.einopsRearrange,
   PyName.window_partition, PyName.window_reverse, PyName.ClassiqueMlp,
   PyName.ClassicAttention, PyName.Attention, PyName.Block, PyName.SegFormerGTOmega,
   PyName.superBuiltin, PyName.isinstance, PyName.intBuiltin, PyName.lenBuiltin]

/-- Names resolvable inside `Block.__init__`: its parameters (no local
assignment precedes the reads of `mlp_hidden_dim` on lines 241 and 246)
and the module scope. -/
def blockInitScope : List PyName := blockInitParams.map PyParam.name ++ moduleScope

/-- Names resolvable inside `SegFormerGTOmega.__init__` when line 295
executes: the parameters `self` and `gt_num`, then the module scope (the
first assignment to the local `ws_pe` only comes on line 296). -/
def segformerInitScope : List PyName := [PyName.self, PyName.gt_num] ++ moduleScope

/-- The bare-name reads of `SegFormerGTOmega.__init__` (lines 288-295) in
evaluation order, up to the first read of line 295.  Line 288
`super(SegFormerGTOmega, self).__init__()` reads `super`,
`SegFormerGTOmega`, `self`; lines 289-292 are attribute assignments reading
`gt_num` and `self`; line 295
`self.global_token1 = torch.nn.Parameter(torch.randn(gt_num, embed_dims[0]))`
reads `torch` (the callable, then the inner call), `gt_num`, and then the
undefined `embed_dims`. -/
def segformerInitReads : List PyName :=
  [PyName.superBuiltin, PyName.SegFormerGTOmega, PyName.self,
   PyName.gt_num, PyName.self, PyName.self, PyName.self, PyName.self,
   PyName.torch, PyName.torch, PyName.gt_num, PyName.embed_dims]

/-- The first name of `reads` that `scope` does not resolve — where a Python
run raises `NameError`. -/
def firstUnresolved (scope reads : List PyName) : Option PyName :=
  reads.find? fun n => !(scope.contains n)

/-- A concrete spatial tensor of shape `(1, 2, 2, 1)` for witnesses. -/
def exSpatial : Tensor ℚ := ⟨[1, 2, 2, 1], fun k => (k : ℚ)⟩

/-- A concrete per-window global-token tensor of shape `(2, 1, 1)`. -/
def exGt3 : Tensor ℚ := ⟨[2, 1, 1], fun k => (k : ℚ) + 7⟩

/-- A concrete rank-2 global-token tensor of shape `(1, 1)`. -/
def exGt2 : Tensor ℚ := ⟨[1, 1], fun _ => 1⟩

/-- A concrete rank-3 token tensor of shape `(1, 4, 1)`, so that `N = H·W`
for `H = W = 2`. -/
def exTokens : Tensor ℚ := ⟨[1, 4, 1], fun k => (k : ℚ)⟩

/-- A second concrete token tensor, of shape `(2, 4, 1)`. -/
def exTokensB : Tensor ℚ := ⟨[2, 4, 1], fun k => (k : ℚ) - 1⟩

/-- A computable stand-in for the exponential inside softmax, used only to
instantiate witnesses (the theorems hold for every `expf`). -/
def exExp : ℚ → ℚ := fun q => 1 + q

/-- A concrete linear layer with all-ones weight and zero bias. -/
def exLinear (i o : Nat) : Linear :=
  { inF := i, outF := o, weight := fun _ _ => 1, bias := fun _ => 0 }

/-- A concrete Local Attention module with `gt_num = 1` and the tuple window
size `(8, 8)` that every instantiation in the source carries. -/
def exAttention : Attention :=
  { dim := 1, num_heads := 1, scale := 1, q := exLinear 1 1, kv := exLinear 1 2,
    proj := exLinear 1 1, sr_ratio := 1, gt_num := 1, window_size := (8, 8) }

/-- The same module with `gt_num = 0` (for claim C7). -/
def exAttention0 : Attention := { exAttention with gt_num := 0 }

/-- A concrete block around `exAttention` with `do_gmsa = false`. -/
def exBlock : Block :=
  { norm1 := id, norm2 := id, attn := exAttention, drop_path := id,
    mlp := fun t _ _ => t, gt_num := 1, do_gmsa := false }

/-- Concrete tokens of shape `(1, 1, 2)` for the `ClassicAttention`
witnesses. -/
def exCTokens : Tensor ℚ := ⟨[1, 1, 2], fun k => (k : ℚ)⟩

/-- A concrete positional-embedding table of shape `(3, 2)`. -/
def exPe : Tensor ℚ := ⟨[3, 2], fun k => (k : ℚ) / 2⟩

/-- A concrete `ClassicAttention` built by `ClassicAttention.init`. -/
def exClassic : ClassicAttention :=
  ClassicAttention.init 2 1 1 (fun _ _ => 1) (fun _ => 0) (fun _ _ => 1) (fun _ => 0)

theorem flattenIdx_lt : ∀ (s idx : List Nat), validIdx s idx = true →
    flattenIdx s idx < s.prod
  | [], [], _ => by simp [flattenIdx]
  | [], _ :: _, h => by simp [validIdx] at h
  | _ :: _, [], h => by simp [validIdx] at h
  | d :: ds, i :: is, h => by
    rw [validIdx, Bool.and_eq_true, decide_eq_true_eq] at h
    have h2 := flattenIdx_lt ds is h.2
    have h3 : (i + 1) * ds.prod ≤ d * ds.prod :=
      Nat.mul_le_mul_right _ h.1
    calc flattenIdx (d :: ds) (i :: is) = i * ds.prod + flattenIdx ds is := rfl
      _ < i * ds.prod + ds.prod := by omega
      _ = (i + 1) * ds.prod := by ring
      _ ≤ d * ds.prod := h3
      _ = (d :: ds).prod := (List.prod_cons).symm

theorem unflattenIdx_valid : ∀ (s : List Nat) (k : Nat), k < s.prod →
    validIdx s (unflattenIdx s k) = true
  | [], _, _ => rfl
  | d :: ds, k, hk => by
    have hdsprod : 0 < ds.prod := by
      rcases Nat.eq_zero_or_pos ds.prod with h0 | h0
      · rw [List.prod_cons, h0, Nat.mul_zero] at hk; omega
      · exact h0
    rw [List.prod_cons] at hk
    rw [unflattenIdx, validIdx, Bool.and_eq_true, decide_eq_true_eq]
    constructor
    · exact Nat.div_lt_of_lt_mul (by rwa [Nat.mul_comm] at hk)
    · exact unflattenIdx_valid ds _ (Nat.mod_lt _ hdsprod)

theorem flattenIdx_unflattenIdx : ∀ (s : List Nat) (k : Nat), k < s.prod →
    flattenIdx s (unflattenIdx s k) = k
  | [], k, hk => by simp [List.prod_nil] at hk; simp [flattenIdx, unflattenIdx, hk]
  | d :: ds, k, hk => by
    have hdsprod : 0 < ds.prod := by
      rcases Nat.eq_zero_or_pos ds.prod with h0 | h0
      · rw [List.prod_cons, h0, Nat.mul_zero] at hk; omega
      · exact h0
    rw [unflattenIdx, flattenIdx,
      flattenIdx_unflattenIdx ds _ (Nat.mod_lt _ hdsprod)]
    rw [Nat.mul_comm]
    exact Nat.div_add_mod k ds.prod

theorem unflattenIdx_flattenIdx : ∀ (s idx : List Nat), validIdx s idx = true →
    unflattenIdx s (flattenIdx s idx) = idx
  | [], [], _ => rfl
  | [], _ :: _, h => by simp [validIdx] at h
  | _ :: _, [], h => by simp [validIdx] at h
  | d :: ds, i :: is, h => by
    rw [validIdx, Bool.and_eq_true, decide_eq_true_eq] at h
    have hrem : flattenIdx ds is < ds.prod := flattenIdx_lt ds is h.2
    have hdsprod : 0 < ds.prod := by omega
    rw [flattenIdx, unflattenIdx]
    have hdiv : (i * ds.prod + flattenIdx ds is) / ds.prod = i := by
      rw [Nat.add_comm, Nat.add_mul_div_right _ _ hdsprod,
        Nat.div_eq_of_lt hrem, Nat.zero_add]
    have hmod : (i * ds.prod + flattenIdx ds is) % ds.prod = flattenIdx ds is := by
      rw [Nat.add_comm, Nat.add_mul_mod_self_right, Nat.mod_eq_of_lt hrem]
    rw [hdiv, hmod, unflattenIdx_flattenIdx ds is h.2]

theorem unflattenIdx_length : ∀ (s : List Nat) (k : Nat),
    (unflattenIdx s k).length = s.length
  | [], _ => rfl
  | _ :: ds, k => by rw [unflattenIdx, List.length_cons, List.length_cons,
      unflattenIdx_length ds]

/-- Entries of `Tensor.ofFn` at valid indices. -/
theorem Tensor.ofFn_get (s : List Nat) (f : List Nat → α) (idx : List Nat)
    (h : validIdx s idx = true) : (Tensor.ofFn s f).get idx = f idx := by
  rw [Tensor.ofFn, Tensor.get]
  show f (unflattenIdx s (flattenIdx s idx)) = f idx
  rw [unflattenIdx_flattenIdx s idx h]

theorem swap23_swap23 : ∀ l : List Nat, swap23 (swap23 l) = l
  | [] => rfl
  | [_] => rfl
  | [_, _] => rfl
  | [_, _, _] => rfl
  | _ :: _ :: _ :: _ :: _ => rfl

theorem validIdx_swap23 (p q r s : Nat) (ts : List Nat) (idx : List Nat) :
    validIdx (p :: q :: s :: r :: ts) (swap23 idx) = validIdx (p :: q :: r :: s :: ts) idx := by
  match idx with
  | [] => rfl
  | [_] => simp [swap23, validIdx]
  | [_, _] => simp [swap23, validIdx]
  | [_, _, _] => simp [swap23, validIdx]
  | a :: b :: c :: d :: is =>
    show validIdx _ (a :: b :: d :: c :: is) = _
    simp only [validIdx]
    cases decide (c < r) <;> cases decide (d < s) <;> simp

/-- The storage of a `permute(0, 1, 3, 2, 4, 5).contiguous()` of a rank-6
tensor, written through `swap23`. -/
theorem permute_swap23_flat (t : Tensor α) (s0 s1 s2 s3 s4 s5 k : Nat)
    (hs : t.shape = [s0, s1, s2, s3, s4, s5]) :
    (t.permute [0, 1, 3, 2, 4, 5]).flat k =
      t.flat (flattenIdx [s0, s1, s2, s3, s4, s5]
        (swap23 (unflattenIdx [s0, s1, s3, s2, s4, s5] k))) := by
  rcases t with ⟨s, f⟩
  simp only at hs
  subst hs
  rfl

/-- The shape of a `permute(0, 1, 3, 2, 4, 5)` of a rank-6 tensor. -/
theorem permute_swap23_shape (t : Tensor α) (s0 s1 s2 s3 s4 s5 : Nat)
    (hs : t.shape = [s0, s1, s2, s3, s4, s5]) :
    (t.permute [0, 1, 3, 2, 4, 5]).shape = [s0, s1, s3, s2, s4, s5] := by
  rcases t with ⟨s, f⟩
  simp only at hs
  subst hs
  rfl

/-- `window_reverse` on a tensor of the windowed shape `(B·nh·nw, w, w, C)`:
all of the inferred and recomputed dimensions resolve as expected. -/
theorem window_reverse_eq (t : Tensor ℚ) (B nh nw w C : Nat) (hw : 0 < w)
    (hB : 0 < B) (hC : 0 < C) (hnh : 0 < nh) (hnw : 0 < nw)
    (hs : t.shape = [B * (nh * nw), w, w, C]) :
    window_reverse t w (w * nh) (w * nw) =
      ((t.view [B, nh, nw, w, w, C]).permute [0, 1, 3, 2, 4, 5]).view [B, w * nh, w * nw, C] := by
  rcases t with ⟨s, g⟩
  simp only at hs
  subst hs
  have div1 : w * nh / w = nh := Nat.mul_div_cancel_left nh hw
  have div2 : w * nw / w = nw := Nat.mul_div_cancel_left nw hw
  have hA : w * nh * (w * nw) / w / w = nh * nw := by
    rw [show w * nh * (w * nw) = w * (nh * (w * nw)) from by ring,
      Nat.mul_div_cancel_left _ hw,
      show nh * (w * nw) = w * (nh * nw) from by ring,
      Nat.mul_div_cancel_left _ hw]
  have hBB : B * (nh * nw) / (nh * nw) = B := Nat.mul_div_cancel _ (by positivity)
  have hsh : ((⟨[B, nh, nw, w, w, C], g⟩ : Tensor ℚ).permute [0, 1, 3, 2, 4, 5]).shape
      = [B, nh, w, nw, w, C] := permute_swap23_shape _ B nh nw w w C rfl
  have hinf1 : B * (nh * nw) * (w * (w * C)) / (B * nh * nw * w * w) = C := by
    rw [show B * (nh * nw) * (w * (w * C)) = C * (B * nh * nw * w * w) from by ring,
      Nat.mul_div_cancel _ (by positivity)]
  have hinf2 : B * (nh * (w * (nw * (w * C)))) / (B * (w * nh) * (w * nw)) = C := by
    rw [show B * (nh * (w * (nw * (w * C)))) = C * (B * (w * nh) * (w * nw)) from by ring,
      Nat.mul_div_cancel _ (by positivity)]
  simp only [window_reverse, Tensor.view, Tensor.numel, List.getD_cons_zero,
    List.prod_cons, List.prod_nil, Nat.mul_one, div1, div2, hA, hBB, hsh, hinf1, hinf2]

/-- Index-level content of the windowing round trip: partitioning re-lays the
data out by the dimension swap `swap23`, reversing swaps back. -/
theorem swap_roundtrip_flat (t : Tensor ℚ) (B nh nw w C : Nat)
    (hs : t.shape = [B, nh, w, nw, w, C]) (k : Nat)
    (hk : k < ([B, nh, w, nw, w, C] : List Nat).prod) :
    ((((t.permute [0, 1, 3, 2, 4, 5]).view [B * (nh * nw), w, w, C]).view
      [B, nh, nw, w, w, C]).permute [0, 1, 3, 2, 4, 5]).flat k = t.flat k := by
  have houter := permute_swap23_flat
    (((t.permute [0, 1, 3, 2, 4, 5]).view [B * (nh * nw), w, w, C]).view [B, nh, nw, w, w, C])
    B nh nw w w C k rfl
  rw [houter]
  have hinner := permute_swap23_flat t B nh w nw w C
    (flattenIdx [B, nh, nw, w, w, C] (swap23 (unflattenIdx [B, nh, w, nw, w, C] k))) hs
  show (t.permute [0, 1, 3, 2, 4, 5]).flat
    (flattenIdx [B, nh, nw, w, w, C] (swap23 (unflattenIdx [B, nh, w, nw, w, C] k))) = t.flat k
  rw [hinner]
  have h1 : validIdx [B, nh, w, nw, w, C] (unflattenIdx [B, nh, w, nw, w, C] k) = true :=
    unflattenIdx_valid _ _ hk
  have h2 : validIdx [B, nh, nw, w, w, C] (swap23 (unflattenIdx [B, nh, w, nw, w, C] k)) = true := by
    rw [validIdx_swap23]
    exact h1
  rw [unflattenIdx_flattenIdx _ _ h2, swap23_swap23, flattenIdx_unflattenIdx _ _ hk]

/-- C1: for a tensor of shape `(B, H, W, C)` with `H` and `W` multiples of
`window_size`, `window_reverse (window_partition x ws) ws H W == x` exactly. -/
theorem c1_windowing_roundtrip (x : Tensor ℚ) (B H W C w : Nat)
    (hs : x.shape = [B, H, W, C]) (hw : 0 < w) (hB : 0 < B) (hC : 0 < C)
    (hH : w ∣ H) (hW : w ∣ W) (hHpos : 0 < H) (hWpos : 0 < W) :
    Tensor.EqOn (window_reverse (window_partition x w) w H W) x := by
  obtain ⟨nh, hnh⟩ := hH
  obtain ⟨nw, hnw⟩ := hW
  subst hnh hnw
  have hnh : 0 < nh := by
    rcases Nat.eq_zero_or_pos nh with h0 | h0
    · rw [h0, Nat.mul_zero] at hHpos; omega
    · exact h0
  have hnw : 0 < nw := by
    rcases Nat.eq_zero_or_pos nw with h0 | h0
    · rw [h0, Nat.mul_zero] at hWpos; omega
    · exact h0
  rcases x with ⟨sx, f⟩
  simp only at hs
  subst hs
  have div1 : w * nh / w = nh := Nat.mul_div_cancel_left nh hw
  have div2 : w * nw / w = nw := Nat.mul_div_cancel_left nw hw
  -- the partitioned tensor, with its inferred `-1` dimension computed
  have hpart : window_partition (⟨[B, w * nh, w * nw, C], f⟩ : Tensor ℚ) w =
      ((Tensor.view ⟨[B, w * nh, w * nw, C], f⟩
        [B, nh, w, nw, w, C]).permute [0, 1, 3, 2, 4, 5]).view [B * (nh * nw), w, w, C] := by
    show ((Tensor.view ⟨[B, w * nh, w * nw, C], f⟩
        [B, w * nh / w, w, w * nw / w, w, C]).permute [0, 1, 3, 2, 4, 5]).view _ = _
    rw [div1, div2]
    have hshape : ((⟨[B, nh, w, nw, w, C], f⟩ : Tensor ℚ).permute [0, 1, 3, 2, 4, 5]).shape
        = [B, nh, nw, w, w, C] := permute_swap23_shape _ B nh w nw w C rfl
    simp only [Tensor.view, Tensor.numel, hshape, List.prod_cons, List.prod_nil,
      Nat.mul_one, Tensor.mk.injEq, List.cons.injEq, and_true, true_and]
    rw [show B * (nh * (nw * (w * (w * C)))) = B * (nh * nw) * (w * w * C) from by ring,
      Nat.mul_div_cancel _ (by positivity)]
  rw [hpart, window_reverse_eq _ B nh nw w C hw hB hC hnh hnw rfl]
  constructor
  · rfl
  · intro idx hv
    have hpeq : ([B, w * nh, w * nw, C] : List Nat).prod
        = ([B, nh, w, nw, w, C] : List Nat).prod := by
      simp only [List.prod_cons, List.prod_nil, Nat.mul_one]
      ring
    have hk : flattenIdx [B, w * nh, w * nw, C] idx
        < ([B, nh, w, nw, w, C] : List Nat).prod := by
      rw [← hpeq]
      exact flattenIdx_lt _ idx hv
    exact swap_roundtrip_flat (Tensor.view ⟨[B, w * nh, w * nw, C], f⟩ [B, nh, w, nw, w, C])
      B nh nw w C rfl (flattenIdx [B, w * nh, w * nw, C] idx) hk

/-- C8: the global-token regrouping of `Block.forward` is a round trip: for a
global-token tensor of shape `((b·n), g, c)` and a window count `n > 0`
dividing the leading dimension, going to the per-batch layout
`"b (n g) c"` and back to the per-window layout `"(b n) g c"` is the
identity (here even as storage, not merely elementwise). -/
theorem c8_regroup_roundtrip (gt : Tensor ℚ) (b n g c : Nat)
    (hs : gt.shape = [b * n, g, c]) (hn : 0 < n) (hg : 0 < g) :
    rearrange_b_ng_c_to_bn_g_c (rearrange_bn_g_c_to_b_ng_c gt n) g c = gt := by
  rcases gt with ⟨s, f⟩
  simp only at hs
  subst hs
  have h1 : b * n / n = b := Nat.mul_div_cancel _ hn
  have h2 : n * g / g = n := Nat.mul_div_cancel _ hg
  show rearrange_b_ng_c_to_bn_g_c
    (Tensor.view ⟨[b * n, g, c], f⟩ [b * n / n, n * g, c]) g c = _
  rw [h1]
  show Tensor.view ⟨[b * n, g, c], f⟩ [b * (n * g / g), g, c] = _
  rw [h2]
  rfl

@[simp] theorem except_bind_ok (a : α) (f : α → Except PyError β) :
    (Except.ok a : Except PyError α) >>= f = f a := rfl

@[simp] theorem except_bind_error (e : PyError) (f : α → Except PyError β) :
    (Except.error e : Except PyError α) >>= f = Except.error e := rfl

/-- The windowing call of line 184 raises `TypeError` on every rank-4
input: its `window_size` argument is a tuple. -/
theorem window_partition_call_typeError (x : Tensor ℚ) (ws : Nat × Nat)
    (b h w c : Nat) (hs : x.shape = [b, h, w, c]) :
    window_partition_call x ws = Except.error PyError.typeErrorIntFloorDivTuple := by
  simp [window_partition_call, hs, unpack4, pyFloorDiv]

/-- `Attention.forward` raises the line 184 `TypeError` on every rank-3
input whose token count matches the spatial dimensions. -/
theorem attention_forward_typeError (expf : ℚ → ℚ) (A : Attention) (x : Tensor ℚ)
    (H W : Nat) (gt : Tensor ℚ) (B N C : Nat)
    (hs : x.shape = [B, N, C]) (hN : N = H * W) :
    Attention.forward expf A x H W gt = Except.error PyError.typeErrorIntFloorDivTuple := by
  subst hN
  have hnumel : B * (H * (W * C)) = x.numel := by
    rw [Tensor.numel, hs]
    simp only [List.prod_cons, List.prod_nil, Nat.mul_one]
    ring
  simp [Attention.forward, hs, unpack3, Tensor.viewChecked, hnumel, Tensor.view,
    Tensor.pad4, Tensor.ofFn, unpack4, window_partition_call, pyFloorDiv]

/-- `Attention.forward` never returns: every input either fails its shape
unpack or view, or reaches the windowing call of line 184, which raises. -/
theorem attention_forward_never_ok (expf : ℚ → ℚ) (A : Attention) (x : Tensor ℚ)
    (H W : Nat) (gt : Tensor ℚ) :
    ∃ e, Attention.forward expf A x H W gt = Except.error e := by
  rcases hx : x.shape with _ | ⟨a, _ | ⟨b, _ | ⟨c, _ | ⟨d, l⟩⟩⟩⟩
  · exact ⟨PyError.valueErrorUnpack 3 0, by simp [Attention.forward, hx, unpack3]⟩
  · exact ⟨PyError.valueErrorUnpack 3 1, by simp [Attention.forward, hx, unpack3]⟩
  · exact ⟨PyError.valueErrorUnpack 3 2, by simp [Attention.forward, hx, unpack3]⟩
  · by_cases hv : a * (H * (W * c)) = x.numel
    · exact ⟨PyError.typeErrorIntFloorDivTuple,
        by simp [Attention.forward, hx, unpack3, Tensor.viewChecked, hv,
          Tensor.view, Tensor.pad4, Tensor.ofFn, unpack4, window_partition_call, pyFloorDiv]⟩
    · exact ⟨PyError.runtimeErrorViewShape,
        by simp [Attention.forward, hx, unpack3, Tensor.viewChecked, hv]⟩
  · exact ⟨PyError.valueErrorUnpack 3 (d :: l).length.succ.succ.succ,
      by simp [Attention.forward, hx, unpack3]⟩

/-- C2 (amended): lines 184-186 bind the windowed tensor and immediately
overwrite the binding with the padded, un-windowed `x` — a pure dead store,
first conjunct — but at run time the `window_partition` call itself raises
`TypeError` (its `window_size` argument is the tuple `(8, 8)`), second
conjunct, so execution never reaches the overwrite, the global-token
concatenation, or the Q/K/V projections. -/
theorem c2_windowing_dead_binding :
    (∀ (partitioned x : Tensor ℚ) (ws : Nat × Nat) (C : Nat),
        xWindowsAfterLine186 partitioned x ws C = x)
    ∧ (∀ (x : Tensor ℚ) (ws : Nat × Nat) (b h w c : Nat), x.shape = [b, h, w, c] →
        window_partition_call x ws = Except.error PyError.typeErrorIntFloorDivTuple) := by
  constructor
  · intro partitioned x ws C
    rfl
  · intro x ws b h w c hs
    exact window_partition_call_typeError x ws b h w c hs

/-- C2 counterexample to the claim as stated: on a concrete input the run
does not carry the padded tensor into the concatenation and Q/K/V — it
raises the `TypeError` inside the `window_partition` call of line 184, so
nothing flows downstream and the forward pass returns no tensors at all. -/
theorem c2_counterexample :
    Attention.forward exExp exAttention exTokensB 2 2 exGt3
      = Except.error PyError.typeErrorIntFloorDivTuple :=
  attention_forward_typeError exExp exAttention exTokensB 2 2 exGt3 2 4 1 rfl rfl

/-- C2 witness: the two conjuncts of `c2_windowing_dead_binding` at concrete
inputs. -/
theorem c2_witness :
    xWindowsAfterLine186 exGt3 exSpatial (8, 8) 1 = exSpatial
    ∧ window_partition_call exSpatial (8, 8)
        = Except.error PyError.typeErrorIntFloorDivTuple :=
  ⟨c2_windowing_dead_binding.1 exGt3 exSpatial (8, 8) 1,
   c2_windowing_dead_binding.2 exSpatial (8, 8) 1 2 2 1 rfl⟩

/-- C5 (evaluation of the code at the failing input, stated generally): a
block with `do_gmsa = false` never returns a global-token tensor at all —
`Block.forward` raises on every rank-3 input, because the Local Attention
call of line 257 raises on every input (and `Block` itself is not even
constructible, claim C3).  The claim that the returned global tokens are
bit-identical to the received ones therefore fails: nothing is returned. -/
theorem c5_block_forward_never_returns (expf : ℚ → ℚ) (blk : Block) (x : Tensor ℚ)
    (H W : Nat) (gt pe : Tensor ℚ) (B N C : Nat)
    (hdg : blk.do_gmsa = false) (hs : x.shape = [B, N, C]) :
    exceptIsOk (Block.forward expf blk x H W gt pe) = false := by
  obtain ⟨e, he⟩ := attention_forward_never_ok expf blk.attn (blk.norm1 x) H W gt
  simp [Block.forward, hs, unpack3, he, exceptIsOk]

/-- C5 witness: `c5_block_forward_never_returns` at a concrete block with
`do_gmsa = false` and a concrete input. -/
theorem c5_witness :
    exceptIsOk (Block.forward exExp exBlock exTokens 2 2 exGt2 exPe) = false :=
  c5_block_forward_never_returns exExp exBlock exTokens 2 2 exGt2 exPe 1 4 1 rfl rfl

/-- C7 (evaluation of the code at the failing input, stated generally): with
`gt_num = 0` Local Attention does not behave as plain self-attention and
returns no empty global-token slice — it raises the same line 184
`TypeError` as every other call, before the `gt_num` branch is even
consulted. -/
theorem c7_gtnum_zero_still_raises (expf : ℚ → ℚ) (A : Attention) (x : Tensor ℚ)
    (H W : Nat) (gt : Tensor ℚ) (B N C : Nat)
    (hgt : A.gt_num = 0) (hs : x.shape = [B, N, C]) (hN : N = H * W) :
    Attention.forward expf A x H W gt = Except.error PyError.typeErrorIntFloorDivTuple :=
  attention_forward_typeError expf A x H W gt B N C hs hN

/-- C7 witness: `c7_gtnum_zero_still_raises` at the concrete `gt_num = 0`
module. -/
theorem c7_witness :
    Attention.forward exExp exAttention0 exTokens 2 2 exGt2
      = Except.error PyError.typeErrorIntFloorDivTuple :=
  c7_gtnum_zero_still_raises exExp exAttention0 exTokens 2 2 exGt2 1 4 1 rfl rfl rfl

/-- C10 (amended): Local Attention raises on every input with
`gt_num ≠ 0`, as the claim concludes, but the first failure is the
`TypeError` inside the `window_partition` call of line 184 (`int // tuple`);
execution never reaches the line 186 assignment of the rank-4 padded tensor
or the line 187 three-way unpack that the claim names as the failing
operation. -/
theorem c10_local_attention_always_raises (expf : ℚ → ℚ) (A : Attention) (x : Tensor ℚ)
    (H W : Nat) (gt : Tensor ℚ) (B N C : Nat)
    (hgt : A.gt_num ≠ 0) (hs : x.shape = [B, N, C]) (hN : N = H * W) :
    Attention.forward expf A x H W gt = Except.error PyError.typeErrorIntFloorDivTuple :=
  attention_forward_typeError expf A x H W gt B N C hs hN

/-- C10 counterexample to the claimed mechanism: on a concrete input with
`gt_num = 1` the forward pass fails with the `TypeError` of the windowing
call, which is not the `ValueError` that the three-way unpack of a rank-4
shape (line 187) would raise — that unpack is never executed. -/
theorem c10_counterexample :
    Attention.forward exExp exAttention exTokens 2 2 exGt3
      = Except.error PyError.typeErrorIntFloorDivTuple
    ∧ PyError.typeErrorIntFloorDivTuple ≠ PyError.valueErrorUnpack 3 4 :=
  ⟨attention_forward_typeError exExp exAttention exTokens 2 2 exGt3 1 4 1 rfl rfl,
   by decide⟩

/-- C10 witness: `c10_local_attention_always_raises` at a concrete input. -/
theorem c10_witness :
    Attention.forward exExp exAttention exTokensB 2 2 exGt2
      = Except.error PyError.typeErrorIntFloorDivTuple :=
  c10_local_attention_always_raises exExp exAttention exTokensB 2 2 exGt2 2 4 1
    (by decide) rfl rfl

/-- C3: the module's operations are not executable as written.
`Block.__init__` places the non-default `dim` and `num_heads` after the
defaulted `gt_num=1` (a SyntaxError, first conjunct); the condition of
`Block.forward` line 262, `if self.gt_num != 0 and :`, ends in the binary
operator `and` with no right operand (a SyntaxError, second conjunct);
`Block.__init__` reads `mlp_hidden_dim`, which no enclosing scope binds
(a NameError were it reached, third conjunct); and
`SegFormerGTOmega.__init__` reads `embed_dims`, which no enclosing scope
binds (only the attribute `self.embed_dims` is assigned — fourth
conjunct). -/
theorem c3_source_not_executable :
    paramsGrammatical blockInitParams = false
    ∧ endsWithBinaryOp line262CondTokens = true
    ∧ blockInitScope.contains PyName.mlp_hidden_dim = false
    ∧ segformerInitScope.contains PyName.embed_dims = false := by
  decide

/-- C9: `SegFormerGTOmega` cannot produce its four feature maps — already at
construction, the first unresolvable name read by `__init__` is
`embed_dims` on line 295 (`torch.randn(gt_num, embed_dims[0])`), so
`SegFormerGTOmega(gt_num)` raises `NameError` before `forward` could ever
run (and the module as a whole is not even importable, claim C3). -/
theorem c9_constructor_nameerror :
    firstUnresolved segformerInitScope segformerInitReads = some PyName.embed_dims := by
  decide

/-- C1 witness: the windowing round trip at the concrete tensor
`exSpatial : (1, 2, 2, 1)` with window size 2. -/
theorem c1_witness :
    Tensor.EqOn (window_reverse (window_partition exSpatial 2) 2 2 2) exSpatial :=
  c1_windowing_roundtrip exSpatial 1 2 2 1 2 rfl (by decide) (by decide) (by decide)
    (by decide) (by decide) (by decide) (by decide)

/-- C8 witness: the regrouping round trip at the concrete tensor
`exGt3 : (2, 1, 1)` with `n = 2` windows. -/
theorem c8_witness :
    rearrange_b_ng_c_to_bn_g_c (rearrange_bn_g_c_to_b_ng_c exGt3 2) 1 1 = exGt3 :=
  c8_regroup_roundtrip exGt3 1 2 1 1 rfl (by decide) (by decide)

/-- `ClassicAttention.forward` factors as the centred positional slice being
added to the input, followed by the Q/K/V pipeline: the positional table is
consumed before any projection. -/
theorem classic_forward_factor (expf : ℚ → ℚ) (A : ClassicAttention) (x pe : Tensor ℚ)
    (B N C : Nat) (hx : x.shape = [B, N, C]) :
    ClassicAttention.forward expf A x pe
      = (x.addBroadcast (centeredSlice pe N)).map
          (ClassicAttention.qkvPipeline expf A B N C) := by
  cases h : x.addBroadcast (centeredSlice pe N) with
  | error e =>
    simp [ClassicAttention.forward, hx, unpack3, h, Except.map]
  | ok t =>
    simp [ClassicAttention.forward, hx, unpack3, h, Except.map,
      ClassicAttention.qkvPipeline]

/-- C4 (on the code as written): Global-Token Attention does preserve the
`(B, N, C)` shape of its input — for every module produced by
`ClassicAttention.__init__` and every rank-3 input with the module width
and a positional table at least as long as the sequence, `forward` returns
a tensor of exactly the input shape (first conjunct).  Local Attention,
however, returns nothing on any input: at a concrete valid input it raises
the `TypeError` of the windowing call (second conjunct), so the claimed
shape invariance fails for it. -/
theorem c4_attention_output_shapes :
    (∀ (expf : ℚ → ℚ) (dim heads : Nat) (scale : ℚ)
        (qkvW : Nat → Nat → ℚ) (qkvB : Nat → ℚ) (projW : Nat → Nat → ℚ) (projB : Nat → ℚ)
        (x pe : Tensor ℚ) (B N L : Nat),
        x.shape = [B, N, dim] → pe.shape = [L, dim] → N ≤ L →
        ∃ y, ClassicAttention.forward expf
            (ClassicAttention.init dim heads scale qkvW qkvB projW projB) x pe
          = Except.ok y ∧ y.shape = [B, N, dim])
    ∧ Attention.forward exExp exAttention exTokens 2 2 exGt2
        = Except.error PyError.typeErrorIntFloorDivTuple := by
  constructor
  · intro expf dim heads scale qkvW qkvB projW projB x pe B N L hx hpe hNL
    rcases pe with ⟨sp, fp⟩
    simp only at hpe
    subst hpe
    have hlen : min (L / 2 - N / 2 + N) L - (L / 2 - N / 2) = N := by omega
    have hcs : centeredSlice (⟨[L, dim], fp⟩ : Tensor ℚ) N
        = Tensor.ofFn [N, dim] (fun idx =>
            (⟨[L, dim], fp⟩ : Tensor ℚ).get ((L / 2 - N / 2 + idx.headD 0) :: idx.drop 1)) := by
      simp only [centeredSlice, Tensor.slice0, List.headD_cons, List.drop_succ_cons,
        List.drop_zero]
      rw [hlen]
    rw [classic_forward_factor expf _ x _ B N dim hx]
    have hcond : (centeredSlice (⟨[L, dim], fp⟩ : Tensor ℚ) N).shape = x.shape.drop 1 := by
      rw [hcs, hx]
      rfl
    rw [Tensor.addBroadcast, if_pos hcond]
    refine ⟨_, rfl, ?_⟩
    simp [ClassicAttention.qkvPipeline, ClassicAttention.init, Linear.apply,
      Tensor.ofFn, Tensor.view, List.dropLast]
  · exact attention_forward_typeError exExp exAttention exTokens 2 2 exGt2 1 4 1 rfl rfl

/-- C4 witness: the first conjunct of `c4_attention_output_shapes` at the
concrete `exClassic` module and concrete inputs, and its second conjunct. -/
theorem c4_witness :
    (∃ y, ClassicAttention.forward exExp exClassic exCTokens exPe = Except.ok y
        ∧ y.shape = [1, 1, 2])
    ∧ Attention.forward exExp exAttention exTokens 2 2 exGt2
        = Except.error PyError.typeErrorIntFloorDivTuple :=
  ⟨c4_attention_output_shapes.1 exExp 2 1 1 (fun _ _ => 1) (fun _ => 0) (fun _ _ => 1)
      (fun _ => 0) exCTokens exPe 1 1 3 rfl rfl (by decide),
   c4_attention_output_shapes.2⟩

/-- C6: in Global-Token Attention the positional table of length `L` is read
through the centred slice of length `N` starting at `L/2 - N/2` (first and
second conjuncts: the slice has shape `(N, C)` and entry `i` reads row
`L/2 - N/2 + i`), for `N = L` the slice is the whole table (third
conjunct), and `forward` adds the slice to the input before computing
Q/K/V (fourth conjunct: the whole forward pass factors through
`x + slice`). -/
theorem c6_centered_positional_slice (pe : Tensor ℚ) (L C N : Nat)
    (hpe : pe.shape = [L, C]) (hNL : N ≤ L) :
    (centeredSlice pe N).shape = [N, C]
    ∧ (∀ i c, i < N → c < C →
        (centeredSlice pe N).get [i, c] = pe.get [L / 2 - N / 2 + i, c])
    ∧ (N = L → Tensor.EqOn (centeredSlice pe N) pe)
    ∧ (∀ (expf : ℚ → ℚ) (A : ClassicAttention) (x : Tensor ℚ) (B : Nat),
        x.shape = [B, N, C] →
        ClassicAttention.forward expf A x pe
          = (x.addBroadcast (centeredSlice pe N)).map
              (ClassicAttention.qkvPipeline expf A B N C)) := by
  rcases pe with ⟨sp, fp⟩
  simp only at hpe
  subst hpe
  have hlen : min (L / 2 - N / 2 + N) L - (L / 2 - N / 2) = N := by omega
  have hcs : centeredSlice (⟨[L, C], fp⟩ : Tensor ℚ) N
      = Tensor.ofFn [N, C] (fun idx =>
          (⟨[L, C], fp⟩ : Tensor ℚ).get ((L / 2 - N / 2 + idx.headD 0) :: idx.drop 1)) := by
    simp only [centeredSlice, Tensor.slice0, List.headD_cons, List.drop_succ_cons,
      List.drop_zero]
    rw [hlen]
  refine ⟨?_, ?_, ?_, ?_⟩
  · rw [hcs]
    rfl
  · intro i c hi hc
    rw [hcs, Tensor.ofFn_get _ _ _ (by simp [validIdx]; omega)]
    rfl
  · intro hNeqL
    subst hNeqL
    constructor
    · rw [hcs]
      rfl
    · intro idx hv
      rcases idx with _ | ⟨i, _ | ⟨c, _ | ⟨e, rest⟩⟩⟩
      · simp [validIdx] at hv
      · simp [validIdx] at hv
      · rw [validIdx, validIdx, validIdx, Bool.and_eq_true, Bool.and_eq_true,
          decide_eq_true_eq, decide_eq_true_eq] at hv
        rw [hcs, Tensor.ofFn_get _ _ _ (by simp [validIdx]; omega)]
        simp [Nat.sub_self]
      · simp [validIdx] at hv
  · intro expf A x B hx
    exact classic_forward_factor expf A x _ B N C hx

/-- C6 witness: the slice facts of `c6_centered_positional_slice` at the
concrete table `exPe : (3, 2)` with query length `N = 1`. -/
theorem c6_witness :
    (centeredSlice exPe 1).shape = [1, 2]
    ∧ (centeredSlice exPe 1).get [0, 1] = exPe.get [3 / 2 - 1 / 2 + 0, 1] :=
  ⟨(c6_centered_positional_slice exPe 3 2 1 rfl (by decide)).1,
   (c6_centered_positional_slice exPe 3 2 1 rfl (by decide)).2.1 0 1 (by decide) (by decide)⟩
